import Mathlib

/-
Verification of the JMeter MCP server's orchestration logic
(`jmeter_server.py`): request validation, argument-vector composition,
unique artifact naming, and execution/result normalization.

The Python function `run_jmeter` is embedded shallowly.  Effects are
modelled through an explicit environment `Env`:
  - `pathExists` and `resolve` model the filesystem operations
    `Path.exists` and `Path.resolve` (resolution to an absolute path);
  - `jmeter_bin_env` and `java_opts_env` model `os.getenv "JMETER_BIN"`
    and `os.getenv "JMETER_JAVA_OPTS"` (`none` = variable unset);
  - `uids n` models the string returned by the n-th call (0-based) to
    `generate_unique_id()` during a request (timestamp + random part,
    nondeterministic, hence supplied by the environment);
  - `runBeh` models `subprocess.run` on a given argument vector: it
    either raises an exception (with message) or completes with a
    return code, stdout and stderr;
  - `popenBeh` models `subprocess.Popen`: it either raises or spawns
    successfully (no output is captured, nothing is awaited).
Raising behaviours model the exceptions that the `try/except` block of
`run_jmeter` can observe from the subprocess layer; the surrounding
pure computations are total.  The function's returned string is the
`result` field of `Outcome`; `cmd` is the composed argument vector
(`none` when validation rejected the request before composition),
`spawned` records whether a process launcher was invoked, and
`uidCalls` counts the calls to `generate_unique_id()`.
-/

namespace JMeterMCP

/-- Outcome of one `run_jmeter` request: the returned string, the
composed argument vector if composition was reached, whether a process
launcher (`subprocess.run` / `subprocess.Popen`) was invoked, and how
many times `generate_unique_id()` was called. -/
structure Outcome where
  result : String
  cmd : Option (List String)
  spawned : Bool
  uidCalls : Nat
deriving Repr, DecidableEq

/-- Result of a completed `subprocess.run`: exit status and the two
captured streams. -/
structure ProcResult where
  returncode : Int
  stdout : String
  stderr : String
deriving Repr, DecidableEq

/-- Behaviour of `subprocess.run` on an argument vector: raise an
exception or complete with a `ProcResult`. -/
inductive RunBehavior where
  | raises (msg : String)
  | completes (r : ProcResult)
deriving Repr, DecidableEq

/-- Behaviour of `subprocess.Popen` on an argument vector: raise an
exception or spawn successfully. -/
inductive PopenBehavior where
  | raises (msg : String)
  | ok
deriving Repr, DecidableEq

/-- The ambient effects `run_jmeter` interacts with. -/
structure Env where
  pathExists : String → Bool
  resolve : String → String
  jmeter_bin_env : Option String
  java_opts_env : Option String
  uids : Nat → String
  runBeh : List String → RunBehavior
  popenBeh : List String → PopenBehavior

/-- The arguments of `run_jmeter` (a request). `properties` is the
Python dict in insertion order; `[]` models `None`/empty (both emit no
`-J` tokens). -/
structure Req where
  test_file : String
  non_gui : Bool
  properties : List (String × String)
  generate_report : Bool
  report_output_dir : Option String
  log_file : Option String
deriving Repr, DecidableEq

/-- Index of the last occurrence of a dot in a character list
(Python's `name.rfind`). -/
def lastDotIndex : List Char → Option Nat
  | [] => none
  | c :: cs =>
    match lastDotIndex cs with
    | some i => some (i + 1)
    | none => if c = '.' then some 0 else none

/-- Split a character list at every occurrence of a separator
(`str.split(sep)` on the underlying characters). -/
def splitOnChar (c : Char) : List Char → List (List Char)
  | [] => [[]]
  | x :: xs =>
    let r := splitOnChar c xs
    if x = c then [] :: r
    else
      match r with
      | [] => [[x]]
      | y :: ys => (x :: y) :: ys

/-- Final component of a path string (`PurePath.name` on the outputs
of `Path.resolve`, which carry no trailing slash). -/
def pathName (p : String) : String :=
  String.mk ((splitOnChar '/' p.data).getLastD [])

/-- `PurePath.suffix`: the extension of the final component, empty for
names whose only dot is leading (dotfiles) or trailing. -/
def pathSuffix (p : String) : String :=
  let name := pathName p
  match lastDotIndex name.data with
  | some i => if 0 < i ∧ i < name.length - 1 then String.mk (name.data.drop i) else ""
  | none => ""

/-- `PurePath.stem`: the final component without its suffix. -/
def pathStem (p : String) : String :=
  let name := pathName p
  match lastDotIndex name.data with
  | some i => if 0 < i ∧ i < name.length - 1 then String.mk (name.data.take i) else name
  | none => name

/-- One `-J<name>=<value>` token. -/
def propToken (pr : String × String) : String :=
  "-J" ++ pr.1 ++ "=" ++ pr.2

/-- The log-file determination (lines 72-78 of the source): the
caller-supplied name verbatim, or `<stem>_<uid>_results.jtl` with a
freshly generated uid.  Returns the name, the uid if one was bound
(`unique_id in locals()`), and the number of generator calls made. -/
def logFileChoice (env : Env) (req : Req) (p : String) : String × Option String × Nat :=
  match req.log_file with
  | some lf => (lf, none, 0)
  | none => (pathStem p ++ "_" ++ env.uids 0 ++ "_results.jtl", some (env.uids 0), 1)

/-- Line 82 of the source: `unique_id if unique_id in locals() else
generate_unique_id()` — reuse the bound uid or generate a fresh one. -/
def uidChoice (env : Env) (uidSet : Option String) (calls : Nat) : String × Nat :=
  match uidSet with
  | some u => (u, calls)
  | none => (env.uids calls, calls + 1)

/-- The report-directory determination (lines 84-92): the guard
`if report_output_dir:` is Python truthiness, so both `None` and a
supplied empty string take the derived `<stem>_<uid>_report` branch;
a non-empty supplied directory gets `_<uid>` appended. -/
def reportDirChoice (req : Req) (p uid : String) : String :=
  match req.report_output_dir with
  | some d => if d ≠ "" then d ++ "_" ++ uid else pathStem p ++ "_" ++ uid ++ "_report"
  | none => pathStem p ++ "_" ++ uid ++ "_report"

/-- Argument-vector composition of `run_jmeter` (lines 49-94), paired
with the number of `generate_unique_id()` calls it makes.  The binary
is `JMETER_BIN` (default `"jmeter"`) passed through `Path.resolve`;
`-n` is appended in non-GUI mode; `-t` carries the resolved test-file
path; one `-J` token per property; the reporting block runs only when
`generate_report` and `non_gui` both hold. -/
def buildCmdCount (env : Env) (req : Req) : List String × Nat :=
  let p := env.resolve req.test_file
  let jmeter_bin := env.jmeter_bin_env.getD "jmeter"
  let base :=
    [env.resolve jmeter_bin]
      ++ (if req.non_gui then ["-n"] else [])
      ++ ["-t", p]
      ++ req.properties.map propToken
  if req.generate_report && req.non_gui then
    let lfc := logFileChoice env req p
    let uc := uidChoice env lfc.2.1 lfc.2.2
    let rd := reportDirChoice req p uc.1
    (base ++ ["-l", lfc.1, "-e", "-o", rd], uc.2)
  else
    (base, 0)

/-- The composed argument vector alone. -/
def buildCmd (env : Env) (req : Req) : List String :=
  (buildCmdCount env req).1

/-- Shallow embedding of `run_jmeter` (lines 25-119 of
`jmeter_server.py`). -/
def run_jmeter (env : Env) (req : Req) : Outcome :=
  let p := env.resolve req.test_file
  if !(env.pathExists p) then
    { result := "Error: Test file not found: " ++ req.test_file
      cmd := none, spawned := false, uidCalls := 0 }
  else if !(pathSuffix p == ".jmx") then
    { result := "Error: Invalid file type. Expected .jmx file: " ++ req.test_file
      cmd := none, spawned := false, uidCalls := 0 }
  else
    let bc := buildCmdCount env req
    if req.non_gui then
      match env.runBeh bc.1 with
      | RunBehavior.raises m =>
        { result := "Unexpected error: " ++ m, cmd := some bc.1, spawned := true, uidCalls := bc.2 }
      | RunBehavior.completes r =>
        if r.returncode != 0 then
          { result := "Error executing JMeter test:\n" ++ r.stderr
            cmd := some bc.1, spawned := true, uidCalls := bc.2 }
        else
          { result := r.stdout, cmd := some bc.1, spawned := true, uidCalls := bc.2 }
    else
      match env.popenBeh bc.1 with
      | PopenBehavior.raises m =>
        { result := "Unexpected error: " ++ m, cmd := some bc.1, spawned := true, uidCalls := bc.2 }
      | PopenBehavior.ok =>
        { result := "JMeter GUI launched successfully", cmd := some bc.1, spawned := true, uidCalls := bc.2 }

/-- The `execute_jmeter_test` MCP tool (lines 121-130): delegates to
`run_jmeter` with `non_gui = not gui_mode` and no reporting options. -/
def execute_jmeter_test (env : Env) (test_file : String) (gui_mode : Bool) (properties : List (String × String)) : Outcome :=
  run_jmeter env
    { test_file := test_file, non_gui := !gui_mode, properties := properties
      generate_report := false, report_output_dir := none, log_file := none }

/-- The `execute_jmeter_test_non_gui` MCP tool (lines 132-143):
delegates to `run_jmeter` with `non_gui = true` and the full reporting
controls. -/
def execute_jmeter_test_non_gui (env : Env) (test_file : String) (properties : List (String × String)) (generate_report : Bool) (report_output_dir log_file : Option String) : Outcome :=
  run_jmeter env
    { test_file := test_file, non_gui := true, properties := properties
      generate_report := generate_report, report_output_dir := report_output_dir
      log_file := log_file }

theorem run_jmeter_valid_reduce (env : Env) (req : Req)
    (hex : env.pathExists (env.resolve req.test_file) = true)
    (hsuf : pathSuffix (env.resolve req.test_file) = ".jmx") :
    run_jmeter env req =
      if req.non_gui then
        match env.runBeh (buildCmd env req) with
        | RunBehavior.raises m =>
          { result := "Unexpected error: " ++ m, cmd := some (buildCmd env req),
            spawned := true, uidCalls := (buildCmdCount env req).2 }
        | RunBehavior.completes r =>
          if r.returncode != 0 then
            { result := "Error executing JMeter test:\n" ++ r.stderr, cmd := some (buildCmd env req),
              spawned := true, uidCalls := (buildCmdCount env req).2 }
          else
            { result := r.stdout, cmd := some (buildCmd env req),
              spawned := true, uidCalls := (buildCmdCount env req).2 }
      else
        match env.popenBeh (buildCmd env req) with
        | PopenBehavior.raises m =>
          { result := "Unexpected error: " ++ m, cmd := some (buildCmd env req),
            spawned := true, uidCalls := (buildCmdCount env req).2 }
        | PopenBehavior.ok =>
          { result := "JMeter GUI launched successfully", cmd := some (buildCmd env req),
            spawned := true, uidCalls := (buildCmdCount env req).2 } := by
  simp only [run_jmeter, buildCmd, hex, hsuf, Bool.not_true, Bool.false_eq_true, if_false,
    beq_self_eq_true]

theorem run_jmeter_valid_cmd (env : Env) (req : Req)
    (hex : env.pathExists (env.resolve req.test_file) = true)
    (hsuf : pathSuffix (env.resolve req.test_file) = ".jmx") :
    (run_jmeter env req).cmd = some (buildCmd env req) ∧
    (run_jmeter env req).uidCalls = (buildCmdCount env req).2 ∧
    (run_jmeter env req).spawned = true := by
  rw [run_jmeter_valid_reduce env req hex hsuf]
  cases hng : req.non_gui
  · simp only [if_false, Bool.false_eq_true]
    cases env.popenBeh (buildCmd env req) <;> simp
  · simp only [if_true]
    cases env.runBeh (buildCmd env req) with
    | raises m => simp
    | completes r =>
      by_cases hr : r.returncode != 0 <;> simp [hr]

/-- C1: in non-GUI (batch) mode, when the spawned process completes,
a non-zero exit status yields the failure string carrying the captured
standard-error text, and a zero exit status yields the captured
standard-output text verbatim, with no trimming or reformatting. -/
theorem c1_batch_exit_normalization (env : Env) (req : Req) (r : ProcResult)
    (hex : env.pathExists (env.resolve req.test_file) = true)
    (hsuf : pathSuffix (env.resolve req.test_file) = ".jmx")
    (hng : req.non_gui = true)
    (hrun : env.runBeh (buildCmd env req) = RunBehavior.completes r) :
    (r.returncode ≠ 0 →
      (run_jmeter env req).result = "Error executing JMeter test:\n" ++ r.stderr) ∧
    (r.returncode = 0 → (run_jmeter env req).result = r.stdout) := by
  rw [run_jmeter_valid_reduce env req hex hsuf]
  simp only [hng, if_true, hrun]
  constructor
  · intro h0
    simp [h0]
  · intro h0
    simp [h0]

def envC1good : Env :=
  { pathExists := fun s => s == "/t/a.jmx", resolve := fun s => s
    jmeter_bin_env := some "/bin/jmeter", java_opts_env := none
    uids := fun _ => "U"
    runBeh := fun _ => RunBehavior.completes { returncode := 0, stdout := "OK", stderr := "" }
    popenBeh := fun _ => PopenBehavior.ok }

def envC1bad : Env :=
  { envC1good with
    runBeh := fun _ => RunBehavior.completes { returncode := 1, stdout := "", stderr := "boom" } }

def reqC1 : Req :=
  { test_file := "/t/a.jmx", non_gui := true, properties := []
    generate_report := false, report_output_dir := none, log_file := none }

/-- C1 witness: a mocked process exiting 0 with stdout `"OK"` yields
exactly `"OK"`; one exiting 1 with stderr `"boom"` yields the failure
string containing `"boom"`. -/
theorem c1_witness :
    (run_jmeter envC1good reqC1).result = "OK" ∧
    (run_jmeter envC1bad reqC1).result = "Error executing JMeter test:\n" ++ "boom" :=
  ⟨(c1_batch_exit_normalization envC1good reqC1
      { returncode := 0, stdout := "OK", stderr := "" }
      (by decide) (by decide) rfl rfl).2 rfl,
   (c1_batch_exit_normalization envC1bad reqC1
      { returncode := 1, stdout := "", stderr := "boom" }
      (by decide) (by decide) rfl rfl).1 (by decide)⟩

/-- C2: for every test-file path that does not exist or whose suffix
is not exactly `.jmx`, `run_jmeter` (and hence both exposed tools,
which merely delegate to it) returns an invalid-input failure string,
no process launcher is invoked, and no argument vector is composed. -/
theorem c2_invalid_input_no_spawn (env : Env) (req : Req)
    (h : env.pathExists (env.resolve req.test_file) = false ∨
         pathSuffix (env.resolve req.test_file) ≠ ".jmx") :
    ((run_jmeter env req).result = "Error: Test file not found: " ++ req.test_file ∨
     (run_jmeter env req).result = "Error: Invalid file type. Expected .jmx file: " ++ req.test_file) ∧
    (run_jmeter env req).spawned = false ∧
    (run_jmeter env req).cmd = none := by
  cases hex : env.pathExists (env.resolve req.test_file)
  · refine ⟨Or.inl ?_, ?_, ?_⟩ <;> simp [run_jmeter, hex]
  · have hsuf : pathSuffix (env.resolve req.test_file) ≠ ".jmx" := by
      rcases h with h | h
      · rw [hex] at h; exact absurd h (by simp)
      · exact h
    have hb : (pathSuffix (env.resolve req.test_file) == ".jmx") = false := by
      simpa using hsuf
    refine ⟨Or.inr ?_, ?_, ?_⟩ <;> simp [run_jmeter, hex, hb]

def envC2 : Env :=
  { pathExists := fun s => s == "/t/a.txt", resolve := fun s => s
    jmeter_bin_env := none, java_opts_env := none
    uids := fun _ => "U"
    runBeh := fun _ => RunBehavior.raises "should not be spawned"
    popenBeh := fun _ => PopenBehavior.raises "should not be spawned" }

def reqC2miss : Req :=
  { test_file := "/t/missing.jmx", non_gui := true, properties := []
    generate_report := false, report_output_dir := none, log_file := none }

def reqC2ext : Req :=
  { test_file := "/t/a.txt", non_gui := true, properties := []
    generate_report := false, report_output_dir := none, log_file := none }

/-- C2 witness: a missing path and a `.txt` path are both rejected
with no spawn and no composed command. -/
theorem c2_witness :
    ((run_jmeter envC2 reqC2miss).spawned = false ∧ (run_jmeter envC2 reqC2miss).cmd = none) ∧
    ((run_jmeter envC2 reqC2ext).spawned = false ∧ (run_jmeter envC2 reqC2ext).cmd = none) :=
  ⟨⟨(c2_invalid_input_no_spawn envC2 reqC2miss (Or.inl (by decide))).2.1,
    (c2_invalid_input_no_spawn envC2 reqC2miss (Or.inl (by decide))).2.2⟩,
   ⟨(c2_invalid_input_no_spawn envC2 reqC2ext (Or.inr (by decide))).2.1,
    (c2_invalid_input_no_spawn envC2 reqC2ext (Or.inr (by decide))).2.2⟩⟩

theorem propToken_ne_two_char (pr : String × String) (c : Char) (hc : c ≠ 'J') :
    propToken pr ≠ String.mk ['-', c] := by
  intro h
  have h2 := congrArg String.data h
  simp only [propToken, String.data_append, List.append_assoc, List.cons_append,
    List.nil_append] at h2
  have h3 := (List.cons.injEq _ _ _ _).mp h2
  exact hc ((List.cons.injEq _ _ _ _).mp h3.2).1.symm

theorem propToken_ne_dash_l (pr : String × String) : propToken pr ≠ "-l" :=
  propToken_ne_two_char pr 'l' (by decide)

theorem propToken_ne_dash_e (pr : String × String) : propToken pr ≠ "-e" :=
  propToken_ne_two_char pr 'e' (by decide)

theorem propToken_ne_dash_o (pr : String × String) : propToken pr ≠ "-o" :=
  propToken_ne_two_char pr 'o' (by decide)

/-- C3: in GUI mode (`non_gui = false`) the composed argument vector
contains none of the report flags `-l`, `-e`, `-o`, for every request —
including requests with `generate_report = true` — provided the binary
and test-file tokens are not themselves literally one of those flag
strings. -/
theorem c3_gui_no_report_flags (env : Env) (req : Req)
    (hgui : req.non_gui = false)
    (hbin : env.resolve (env.jmeter_bin_env.getD "jmeter") ∉ (["-l", "-e", "-o"] : List String))
    (hpath : env.resolve req.test_file ∉ (["-l", "-e", "-o"] : List String)) :
    "-l" ∉ buildCmd env req ∧ "-e" ∉ buildCmd env req ∧ "-o" ∉ buildCmd env req := by
  simp only [List.mem_cons, List.mem_singleton, not_or] at hbin hpath
  have hbase : buildCmd env req =
      [env.resolve (env.jmeter_bin_env.getD "jmeter")]
        ++ ["-t", env.resolve req.test_file]
        ++ req.properties.map propToken := by
    simp [buildCmd, buildCmdCount, hgui]
  have key : ∀ f : String, f ≠ env.resolve (env.jmeter_bin_env.getD "jmeter") →
      f ≠ "-t" → f ≠ env.resolve req.test_file →
      (∀ pr : String × String, propToken pr ≠ f) → f ∉ buildCmd env req := by
    intro f h1 h2 h3 h4 hmem
    rw [hbase] at hmem
    simp only [List.append_assoc, List.cons_append, List.nil_append, List.mem_cons,
      List.mem_map] at hmem
    rcases hmem with h | h | h | ⟨pr, _, hpr⟩
    · exact h1 h
    · exact h2 h
    · exact h3 h
    · exact h4 pr hpr
  exact ⟨key "-l" (fun h => hbin.1 h.symm) (by decide) (fun h => hpath.1 h.symm)
           propToken_ne_dash_l,
         key "-e" (fun h => hbin.2.1 h.symm) (by decide) (fun h => hpath.2.1 h.symm)
           propToken_ne_dash_e,
         key "-o" (fun h => hbin.2.2.1 h.symm) (by decide) (fun h => hpath.2.2.1 h.symm)
           propToken_ne_dash_o⟩

def envC3 : Env :=
  { pathExists := fun s => s == "/t/a.jmx", resolve := fun s => s
    jmeter_bin_env := some "/bin/jmeter", java_opts_env := none
    uids := fun _ => "U"
    runBeh := fun _ => RunBehavior.completes { returncode := 0, stdout := "", stderr := "" }
    popenBeh := fun _ => PopenBehavior.ok }

def reqC3 : Req :=
  { test_file := "/t/a.jmx", non_gui := false, properties := [("threads", "10")]
    generate_report := true, report_output_dir := some "out", log_file := some "x.jtl" }

/-- C3 witness: a GUI request with `generate_report = true`, a
caller-supplied report directory and log file still emits none of the
three report flags. -/
theorem c3_witness :
    "-l" ∉ buildCmd envC3 reqC3 ∧ "-e" ∉ buildCmd envC3 reqC3 ∧ "-o" ∉ buildCmd envC3 reqC3 :=
  c3_gui_no_report_flags envC3 reqC3 rfl (by decide) (by decide)

/-- C4: for a non-GUI request with `generate_report = true` and no
caller-supplied log file or report directory, `generate_unique_id()` is
called exactly once and the single suffix `uids 0` appears in both the
derived log-file name `<stem>_<suffix>_results.jtl` and the derived
report directory `<stem>_<suffix>_report`. -/
theorem c4_shared_unique_suffix (env : Env) (req : Req)
    (hex : env.pathExists (env.resolve req.test_file) = true)
    (hsuf : pathSuffix (env.resolve req.test_file) = ".jmx")
    (hng : req.non_gui = true) (hgr : req.generate_report = true)
    (hlf : req.log_file = none) (hrd : req.report_output_dir = none) :
    (run_jmeter env req).uidCalls = 1 ∧
    (run_jmeter env req).cmd = some
      ([env.resolve (env.jmeter_bin_env.getD "jmeter"), "-n", "-t", env.resolve req.test_file]
        ++ req.properties.map propToken
        ++ ["-l", pathStem (env.resolve req.test_file) ++ "_" ++ env.uids 0 ++ "_results.jtl",
            "-e", "-o", pathStem (env.resolve req.test_file) ++ "_" ++ env.uids 0 ++ "_report"]) := by
  obtain ⟨hcmd, huid, -⟩ := run_jmeter_valid_cmd env req hex hsuf
  have hbuild : buildCmdCount env req =
      ([env.resolve (env.jmeter_bin_env.getD "jmeter"), "-n", "-t", env.resolve req.test_file]
        ++ req.properties.map propToken
        ++ ["-l", pathStem (env.resolve req.test_file) ++ "_" ++ env.uids 0 ++ "_results.jtl",
            "-e", "-o", pathStem (env.resolve req.test_file) ++ "_" ++ env.uids 0 ++ "_report"],
       1) := by
    simp [buildCmdCount, hng, hgr, hlf, hrd, logFileChoice, uidChoice, reportDirChoice]
  refine ⟨?_, ?_⟩
  · rw [huid, hbuild]
  · rw [hcmd, buildCmd, hbuild]

def envC4 : Env :=
  { pathExists := fun s => s == "/t/a.jmx", resolve := fun s => s
    jmeter_bin_env := some "/bin/jmeter", java_opts_env := none
    uids := fun n => if n == 0 then "UID0" else "UID1"
    runBeh := fun _ => RunBehavior.completes { returncode := 0, stdout := "OK", stderr := "" }
    popenBeh := fun _ => PopenBehavior.ok }

def reqC4 : Req :=
  { test_file := "/t/a.jmx", non_gui := true, properties := []
    generate_report := true, report_output_dir := none, log_file := none }

/-- C4 witness: with suffix `UID0` both artifact names share it and
the generator is called once. -/
theorem c4_witness :
    (run_jmeter envC4 reqC4).uidCalls = 1 ∧
    (run_jmeter envC4 reqC4).cmd = some
      ["/bin/jmeter", "-n", "-t", "/t/a.jmx",
       "-l", "a_UID0_results.jtl", "-e", "-o", "a_UID0_report"] := by
  have h := c4_shared_unique_suffix envC4 reqC4 (by decide) (by decide) rfl rfl rfl rfl
  exact ⟨h.1, by rw [h.2]; decide⟩

/-- C5 (amended): for a non-GUI request with `generate_report = true`
and a caller-supplied non-empty report directory `d`, the directory
actually passed with `-o` is `d ++ "_" ++ <generated suffix>`, which is
never the bare supplied name; a supplied empty string is falsy in the
guard `if report_output_dir:` and is treated as absent. -/
theorem c5_supplied_report_dir_suffixed (env : Env) (req : Req) (d : String)
    (hex : env.pathExists (env.resolve req.test_file) = true)
    (hsuf : pathSuffix (env.resolve req.test_file) = ".jmx")
    (hng : req.non_gui = true) (hgr : req.generate_report = true)
    (hrd : req.report_output_dir = some d) (hd : d ≠ "") :
    (run_jmeter env req).cmd = some
      ([env.resolve (env.jmeter_bin_env.getD "jmeter"), "-n", "-t", env.resolve req.test_file]
        ++ req.properties.map propToken
        ++ ["-l",
            req.log_file.getD
              (pathStem (env.resolve req.test_file) ++ "_" ++ env.uids 0 ++ "_results.jtl"),
            "-e", "-o", d ++ "_" ++ env.uids 0]) ∧
    d ++ "_" ++ env.uids 0 ≠ d := by
  obtain ⟨hcmd, -, -⟩ := run_jmeter_valid_cmd env req hex hsuf
  constructor
  · rw [hcmd, buildCmd]
    cases hlf : req.log_file with
    | none =>
      simp [buildCmdCount, hng, hgr, hlf, hrd, hd, logFileChoice, uidChoice, reportDirChoice]
    | some lf =>
      simp [buildCmdCount, hng, hgr, hlf, hrd, hd, logFileChoice, uidChoice, reportDirChoice]
  · intro h
    have hl := congrArg String.length h
    simp only [String.length_append] at hl
    have h1 : ("_" : String).length = 1 := rfl
    omega

def envC5 : Env :=
  { pathExists := fun s => s == "/t/a.jmx", resolve := fun s => s
    jmeter_bin_env := some "/bin/jmeter", java_opts_env := none
    uids := fun _ => "UID0"
    runBeh := fun _ => RunBehavior.completes { returncode := 0, stdout := "OK", stderr := "" }
    popenBeh := fun _ => PopenBehavior.ok }

def reqC5 : Req :=
  { test_file := "/t/a.jmx", non_gui := true, properties := []
    generate_report := true, report_output_dir := some "out", log_file := none }

def reqC5empty : Req :=
  { test_file := "/t/a.jmx", non_gui := true, properties := []
    generate_report := true, report_output_dir := some "", log_file := none }

/-- C5 counterexample: with a caller-supplied `report_output_dir` of
`""` (falsy under the guard `if report_output_dir:` of line 84), the
directory passed with `-o` is the derived `a_UID0_report`, not the
supplied name with `_<suffix>` appended (which would be `"_UID0"`), so
the claim as stated over every caller-supplied value fails. -/
theorem c5_counterexample :
    reqC5empty.report_output_dir = some "" ∧
    (run_jmeter envC5 reqC5empty).cmd = some
      ["/bin/jmeter", "-n", "-t", "/t/a.jmx",
       "-l", "a_UID0_results.jtl", "-e", "-o", "a_UID0_report"] ∧
    "a_UID0_report" ≠ "" ++ "_" ++ envC5.uids 0 := by
  exact ⟨rfl, by decide, by decide⟩

/-- C5 (amended) witness: supplied non-empty directory `"out"` becomes
`"out_UID0"`, never bare `"out"`. -/
theorem c5_witness :
    (run_jmeter envC5 reqC5).cmd = some
      ["/bin/jmeter", "-n", "-t", "/t/a.jmx",
       "-l", "a_UID0_results.jtl", "-e", "-o", "out_UID0"] ∧
    "out_UID0" ≠ "out" := by
  have h := c5_supplied_report_dir_suffixed envC5 reqC5 "out"
    (by decide) (by decide) rfl rfl rfl (by decide)
  exact ⟨by rw [h.1]; decide, by decide⟩

/-- C6 (amended): the first token of every composed argument vector
is the configured binary (default `"jmeter"`) passed through
`Path.resolve` — the value is always resolved against the filesystem,
even when it is a bare short name rather than a path. -/
theorem c6_first_token_always_resolved (env : Env) (req : Req)
    (hex : env.pathExists (env.resolve req.test_file) = true)
    (hsuf : pathSuffix (env.resolve req.test_file) = ".jmx") :
    (run_jmeter env req).cmd = some (buildCmd env req) ∧
    (buildCmd env req).head? = some (env.resolve (env.jmeter_bin_env.getD "jmeter")) := by
  refine ⟨(run_jmeter_valid_cmd env req hex hsuf).1, ?_⟩
  rw [buildCmd, buildCmdCount]
  cases h : req.generate_report && req.non_gui <;> simp [h]

def envC6 : Env :=
  { pathExists := fun s => s == "/cwd/a.jmx", resolve := fun s => "/cwd/" ++ s
    jmeter_bin_env := none, java_opts_env := none
    uids := fun _ => "U"
    runBeh := fun _ => RunBehavior.completes { returncode := 0, stdout := "OK", stderr := "" }
    popenBeh := fun _ => PopenBehavior.ok }

def reqC6 : Req :=
  { test_file := "a.jmx", non_gui := true, properties := []
    generate_report := false, report_output_dir := none, log_file := none }

/-- C6 counterexample: with no binary configured and a current
working directory of `/cwd`, the first token is `/cwd/jmeter`, not the
default short name `jmeter` — so the default does not remain resolvable
via the search path, and resolution is not restricted to values
specified as paths. -/
theorem c6_counterexample :
    envC6.jmeter_bin_env = none ∧
    (run_jmeter envC6 reqC6).cmd = some ["/cwd/jmeter", "-n", "-t", "/cwd/a.jmx"] ∧
    "/cwd/jmeter" ≠ "jmeter" := by
  exact ⟨rfl, by decide, by decide⟩

/-- C6 (amended) witness: the first token equals the resolved
binary. -/
theorem c6_witness :
    (run_jmeter envC6 reqC6).cmd = some (buildCmd envC6 reqC6) ∧
    (buildCmd envC6 reqC6).head? = some "/cwd/jmeter" := by
  have h := c6_first_token_always_resolved envC6 reqC6 (by decide) (by decide)
  exact ⟨h.1, by rw [h.2]; decide⟩

def envC7 : Env :=
  { pathExists := fun s => s == "/t/a.jmx", resolve := fun s => s
    jmeter_bin_env := some "/bin/jmeter", java_opts_env := some "-Xmx1g"
    uids := fun _ => "U"
    runBeh := fun _ => RunBehavior.completes { returncode := 0, stdout := "OK", stderr := "" }
    popenBeh := fun _ => PopenBehavior.ok }

def reqC7 : Req :=
  { test_file := "/t/a.jmx", non_gui := true, properties := []
    generate_report := false, report_output_dir := none, log_file := none }

/-- C7: the `JMETER_JAVA_OPTS` value read from the environment never
reaches the executed command — `run_jmeter` is invariant under changing
it, and at a concrete input with `JMETER_JAVA_OPTS = "-Xmx1g"` the
composed vector does not contain the option.  This refutes the claim
that configured extra launch options appear in (and affect) the
executed command; the code reads and logs the variable but never uses
it. -/
theorem c7_java_opts_never_reach_cmd :
    (∀ (env : Env) (req : Req) (o : Option String),
      run_jmeter { env with java_opts_env := o } req = run_jmeter env req) ∧
    envC7.java_opts_env = some "-Xmx1g" ∧
    (run_jmeter envC7 reqC7).cmd = some ["/bin/jmeter", "-n", "-t", "/t/a.jmx"] ∧
    "-Xmx1g" ∉ (["/bin/jmeter", "-n", "-t", "/t/a.jmx"] : List String) := by
  exact ⟨fun env req o => rfl, rfl, by decide, by decide⟩

/-- C8: in GUI mode, when the spawn succeeds, the result is the
fixed confirmation text `"JMeter GUI launched successfully"`, a
launcher was invoked, and the outcome is independent of the
batch-capture behaviour (`subprocess.run`) — nothing is awaited and no
output is captured. -/
theorem c8_gui_spawn_fixed_success (env : Env) (req : Req)
    (hex : env.pathExists (env.resolve req.test_file) = true)
    (hsuf : pathSuffix (env.resolve req.test_file) = ".jmx")
    (hgui : req.non_gui = false)
    (hspawn : env.popenBeh (buildCmd env req) = PopenBehavior.ok) :
    (run_jmeter env req).result = "JMeter GUI launched successfully" ∧
    (run_jmeter env req).spawned = true ∧
    (∀ rb : List String → RunBehavior,
      run_jmeter { env with runBeh := rb } req = run_jmeter env req) := by
  have hval := run_jmeter_valid_reduce env req hex hsuf
  refine ⟨?_, ?_, ?_⟩
  · rw [hval]; simp [hgui, hspawn]
  · rw [hval]; simp [hgui, hspawn]
  · intro rb
    have hval2 := run_jmeter_valid_reduce { env with runBeh := rb } req hex hsuf
    rw [hval, hval2]
    simp only [hgui, Bool.false_eq_true, if_false]
    rfl

def envC8 : Env :=
  { pathExists := fun s => s == "/t/a.jmx", resolve := fun s => s
    jmeter_bin_env := some "/bin/jmeter", java_opts_env := none
    uids := fun _ => "U"
    runBeh := fun _ => RunBehavior.raises "run must not be consulted in GUI mode"
    popenBeh := fun _ => PopenBehavior.ok }

def reqC8 : Req :=
  { test_file := "/t/a.jmx", non_gui := false, properties := []
    generate_report := true, report_output_dir := none, log_file := none }

/-- C8 witness: a GUI request whose `Popen` succeeds returns the
fixed text even though the batch runner would raise. -/
theorem c8_witness :
    (run_jmeter envC8 reqC8).result = "JMeter GUI launched successfully" ∧
    (run_jmeter envC8 reqC8).spawned = true :=
  ⟨(c8_gui_spawn_fixed_success envC8 reqC8 (by decide) (by decide) rfl rfl).1,
   (c8_gui_spawn_fixed_success envC8 reqC8 (by decide) (by decide) rfl rfl).2.1⟩

/-- Whether the process launcher of the selected mode raises an
exception with message `m` on the composed command. -/
def spawnRaises (env : Env) (req : Req) (m : String) : Prop :=
  if req.non_gui then env.runBeh (buildCmd env req) = RunBehavior.raises m
  else env.popenBeh (buildCmd env req) = PopenBehavior.raises m

/-- C9: any exception raised by the process launcher of the selected
mode (e.g. a missing binary) is caught and converted into the failure
string `"Unexpected error: " ++ msg`; the embedding is total, so the
caller always receives an `Outcome` value. -/
theorem c9_exceptions_become_failure (env : Env) (req : Req) (m : String)
    (hex : env.pathExists (env.resolve req.test_file) = true)
    (hsuf : pathSuffix (env.resolve req.test_file) = ".jmx")
    (hm : spawnRaises env req m) :
    (run_jmeter env req).result = "Unexpected error: " ++ m := by
  rw [run_jmeter_valid_reduce env req hex hsuf]
  unfold spawnRaises at hm
  cases hng : req.non_gui
  · rw [hng] at hm
    simp only [Bool.false_eq_true, if_false] at hm ⊢
    rw [hm]
  · rw [hng] at hm
    simp only [if_true] at hm ⊢
    rw [hm]

def envC9 : Env :=
  { pathExists := fun s => s == "/t/a.jmx", resolve := fun s => s
    jmeter_bin_env := some "/missing/jmeter", java_opts_env := none
    uids := fun _ => "U"
    runBeh := fun _ => RunBehavior.raises "No such file or directory"
    popenBeh := fun _ => PopenBehavior.raises "No such file or directory"}

def reqC9 : Req :=
  { test_file := "/t/a.jmx", non_gui := true, properties := []
    generate_report := false, report_output_dir := none, log_file := none }

/-- C9 witness: a spawn failure with message
`"No such file or directory"` is returned as an unexpected-error
failure string. -/
theorem c9_witness :
    (run_jmeter envC9 reqC9).result = "Unexpected error: " ++ "No such file or directory" :=
  c9_exceptions_become_failure envC9 reqC9 "No such file or directory"
    (by decide) (by decide) (by exact rfl)

/-- C10: an existing file whose final path component is exactly
`.jmx` (a dotfile with empty stem) has computed suffix `""`, not
`".jmx"`, so validation rejects it with the invalid-file-type failure
and no process is spawned. -/
theorem c10_dotfile_jmx_rejected (env : Env) (req : Req)
    (hex : env.pathExists (env.resolve req.test_file) = true)
    (hname : pathName (env.resolve req.test_file) = ".jmx") :
    pathSuffix (env.resolve req.test_file) = "" ∧
    (run_jmeter env req).result =
      "Error: Invalid file type. Expected .jmx file: " ++ req.test_file ∧
    (run_jmeter env req).spawned = false ∧
    (run_jmeter env req).cmd = none := by
  have hsuf : pathSuffix (env.resolve req.test_file) = "" := by
    simp only [pathSuffix, hname]
    decide
  have hb : (pathSuffix (env.resolve req.test_file) == ".jmx") = false := by
    simp [hsuf]
  refine ⟨hsuf, ?_, ?_, ?_⟩ <;> simp [run_jmeter, hex, hb]

def envC10 : Env :=
  { pathExists := fun s => s == "/home/.jmx", resolve := fun s => s
    jmeter_bin_env := some "/bin/jmeter", java_opts_env := none
    uids := fun _ => "U"
    runBeh := fun _ => RunBehavior.raises "should not be spawned"
    popenBeh := fun _ => PopenBehavior.raises "should not be spawned" }

def reqC10 : Req :=
  { test_file := "/home/.jmx", non_gui := true, properties := []
    generate_report := false, report_output_dir := none, log_file := none }

/-- C10 witness: the existing file `/home/.jmx` is rejected with the
invalid-file-type message and no spawn. -/
theorem c10_witness :
    (run_jmeter envC10 reqC10).result =
      "Error: Invalid file type. Expected .jmx file: " ++ "/home/.jmx" ∧
    (run_jmeter envC10 reqC10).spawned = false :=
  ⟨(c10_dotfile_jmx_rejected envC10 reqC10 (by decide) (by decide)).2.1,
   (c10_dotfile_jmx_rejected envC10 reqC10 (by decide) (by decide)).2.2.1⟩

end JMeterMCP
